import Mathlib

/-
Verification of the claude-switch credential-profile manager (Rust sources:
src/oauth.rs, src/profile.rs, src/main.rs) against its natural-language
specification.  The Rust code is shallowly embedded: pure logic becomes Lean
functions; filesystem state becomes an explicit `World` record threaded
through each operation together with an access trace; the wall clock, the
token-refresh HTTP exchange and the interactive login subprocess become
explicit input parameters (oracles).  u64 arithmetic that the source performs
is modelled on `Nat` with an explicit `% 2 ^ 64` where the source adds or
multiplies u64 values (release-mode wrapping semantics); theorems that speak
about the non-overflow regime carry the corresponding bound as a hypothesis.
Stored files are modelled at the JSON-document level (`serde_json` value <->
text round-tripping is assumed): a file is missing, malformed (bytes that do
not decode to a JSON document), or a JSON value.
-/

namespace ClaudeSwitch

/-- Minimal model of `serde_json::Value`: the subset the program produces and
consumes.  Numbers are modelled as integers — the program only reads and
writes integral numeric fields (`expiresAt`, `expires_in`). -/
inductive J : Type where
  | null : J
  | bool (b : Bool) : J
  | num (n : Int) : J
  | str (s : String) : J
  | arr (elems : List J) : J
  | obj (fields : List (String × J)) : J

/-- Value bound to a key in a JSON object's field list (serde_json objects
have unique keys, so first match is the binding). -/
def keyGet : List (String × J) → String → Option J
  | [], _ => none
  | (k, v) :: rest, key => if k = key then some v else keyGet rest key

/-- `serde_json::Value` string indexing `v["key"]`: the bound value for an
object that has the key, `Null` otherwise (also for non-objects). -/
def J.get : J → String → J
  | .obj fields, key => (keyGet fields key).getD J.null
  | _, _ => J.null

/-- Key lookup that distinguishes a missing key from a `null` value
(`Value::get`). -/
def J.lookup : J → String → Option J
  | .obj fields, key => keyGet fields key
  | _, _ => none

/-- `Value::as_str`. -/
def J.asStr : J → Option String
  | .str s => some s
  | _ => none

/-- `Value::as_u64`: some for integral values representable in u64. -/
def J.asU64 : J → Option Nat
  | .num n => if 0 ≤ n ∧ n < 2 ^ 64 then some n.toNat else none
  | _ => none

-- --- Data model (src/profile.rs) ---

/-- `OAuthCredentials` (profile.rs).  `expires_at` is a u64 millisecond
timestamp, modelled as `Nat`. -/
structure OAuthCredentials where
  access_token : String
  refresh_token : String
  expires_at : Nat
  scopes : List String
  subscription_type : Option String
  rate_limit_tier : Option String
deriving DecidableEq

/-- `OAuthAccount` (profile.rs): best-effort identity metadata, all fields
optional. -/
structure OAuthAccount where
  account_uuid : Option String := none
  email_address : Option String := none
  organization_uuid : Option String := none
  display_name : Option String := none
  organization_role : Option String := none
  organization_name : Option String := none
  has_extra_usage_enabled : Option Bool := none
deriving DecidableEq

/-- The `Profile` tagged union (profile.rs): an OAuth identity or a static
API key. -/
inductive Profile : Type where
  | oauth (credentials : OAuthCredentials) (account : OAuthAccount) : Profile
  | apiKey (api_key : String) (label : Option String) : Profile
deriving DecidableEq

/-- Persisted active-profile pointer (`State` in profile.rs). -/
structure State where
  active_profile : Option String := none
deriving DecidableEq

-- --- Serialization (the derived serde impls, at the JSON-document level) ---

/-- Serde `skip_serializing_if Option.is_none` for a string field: emitted
only when present. -/
def optStrField (key : String) : Option String → List (String × J)
  | some s => [(key, J.str s)]
  | none => []

/-- Serde `skip_serializing_if Option.is_none` for a bool field. -/
def optBoolField (key : String) : Option Bool → List (String × J)
  | some b => [(key, J.bool b)]
  | none => []

/-- Deserialize a required `String` struct field: the key must be present and
bound to a JSON string. -/
def getReqStr (fields : List (String × J)) (key : String) : Option String :=
  match keyGet fields key with
  | some (J.str s) => some s
  | _ => none

/-- Deserialize a required `u64` struct field. -/
def getReqU64 (fields : List (String × J)) (key : String) : Option Nat :=
  match keyGet fields key with
  | some (J.num n) => if 0 ≤ n ∧ n < 2 ^ 64 then some n.toNat else none
  | _ => none

/-- Deserialize an `Option String` struct field: a missing key or a `null`
reads as `none`; a string reads as `some`; any other value is an error. -/
def getOptStr (fields : List (String × J)) (key : String) : Option (Option String) :=
  match keyGet fields key with
  | none => some none
  | some J.null => some none
  | some (J.str s) => some (some s)
  | some _ => none

/-- Deserialize an `Option Bool` struct field. -/
def getOptBool (fields : List (String × J)) (key : String) : Option (Option Bool) :=
  match keyGet fields key with
  | none => some none
  | some J.null => some none
  | some (J.bool b) => some (some b)
  | some _ => none

/-- Deserialize a `Vec String` value: an array whose elements are all
strings. -/
def allStrs : List J → Option (List String)
  | [] => some []
  | J.str s :: rest => (allStrs rest).map (s :: ·)
  | _ => none

def getReqStrList (fields : List (String × J)) (key : String) : Option (List String) :=
  match keyGet fields key with
  | some (J.arr elems) => allStrs elems
  | _ => none

/-- Serialization of `OAuthCredentials` (serde `rename_all = "camelCase"`,
optional fields skipped when absent). -/
def OAuthCredentials.toJson (c : OAuthCredentials) : J :=
  J.obj ([("accessToken", J.str c.access_token),
          ("refreshToken", J.str c.refresh_token),
          ("expiresAt", J.num c.expires_at),
          ("scopes", J.arr (c.scopes.map J.str))]
         ++ optStrField "subscriptionType" c.subscription_type
         ++ optStrField "rateLimitTier" c.rate_limit_tier)

def OAuthCredentials.fromJson : J → Option OAuthCredentials
  | J.obj fields => do
    let access_token ← getReqStr fields "accessToken"
    let refresh_token ← getReqStr fields "refreshToken"
    let expires_at ← getReqU64 fields "expiresAt"
    let scopes ← getReqStrList fields "scopes"
    let subscription_type ← getOptStr fields "subscriptionType"
    let rate_limit_tier ← getOptStr fields "rateLimitTier"
    pure ⟨access_token, refresh_token, expires_at, scopes, subscription_type, rate_limit_tier⟩
  | _ => none

def OAuthAccount.toJson (a : OAuthAccount) : J :=
  J.obj (optStrField "accountUuid" a.account_uuid
         ++ optStrField "emailAddress" a.email_address
         ++ optStrField "organizationUuid" a.organization_uuid
         ++ optStrField "displayName" a.display_name
         ++ optStrField "organizationRole" a.organization_role
         ++ optStrField "organizationName" a.organization_name
         ++ optBoolField "hasExtraUsageEnabled" a.has_extra_usage_enabled)

def OAuthAccount.fromJson : J → Option OAuthAccount
  | J.obj fields => do
    let account_uuid ← getOptStr fields "accountUuid"
    let email_address ← getOptStr fields "emailAddress"
    let organization_uuid ← getOptStr fields "organizationUuid"
    let display_name ← getOptStr fields "displayName"
    let organization_role ← getOptStr fields "organizationRole"
    let organization_name ← getOptStr fields "organizationName"
    let has_extra_usage_enabled ← getOptBool fields "hasExtraUsageEnabled"
    pure ⟨account_uuid, email_address, organization_uuid, display_name,
          organization_role, organization_name, has_extra_usage_enabled⟩
  | _ => none

/-- Serialization of `Profile`: serde internally tagged enum with tag key
`"type"`, variants renamed `"oauth"` / `"api_key"`; variant field names are
not renamed (`credentials`, `account`, `api_key`, `label`). -/
def Profile.toJson : Profile → J
  | .oauth c a =>
      J.obj [("type", J.str "oauth"),
             ("credentials", OAuthCredentials.toJson c),
             ("account", OAuthAccount.toJson a)]
  | .apiKey k l =>
      J.obj ([("type", J.str "api_key"), ("api_key", J.str k)]
             ++ optStrField "label" l)

def Profile.fromJson : J → Option Profile
  | J.obj fields =>
    match keyGet fields "type" with
    | some (J.str tag) =>
      if tag = "oauth" then do
        let cj ← keyGet fields "credentials"
        let c ← OAuthCredentials.fromJson cj
        let aj ← keyGet fields "account"
        let a ← OAuthAccount.fromJson aj
        pure (Profile.oauth c a)
      else if tag = "api_key" then do
        let k ← getReqStr fields "api_key"
        let l ← getOptStr fields "label"
        pure (Profile.apiKey k l)
      else none
    | _ => none
  | _ => none

/-- Serialization of the active-state record; `active_profile` is skipped
when absent. -/
def State.toJson (s : State) : J :=
  J.obj (optStrField "active_profile" s.active_profile)

def State.fromJson : J → Option State
  | J.obj fields => do
    let a ← getOptStr fields "active_profile"
    pure ⟨a⟩
  | _ => none

/-- u64 well-formedness of the one numeric field a profile stores: the Rust
struct holds `expires_at` in a u64. -/
def Profile.wf : Profile → Prop
  | .oauth c _ => c.expires_at < 2 ^ 64
  | .apiKey _ _ => True

-- --- Round-trip lemmas for the serializers ---

theorem keyGet_append (l1 l2 : List (String × J)) (k : String) :
    keyGet (l1 ++ l2) k =
      match keyGet l1 k with
      | some v => some v
      | none => keyGet l2 k := by
  induction l1 with
  | nil => rfl
  | cons hd tl ih =>
    obtain ⟨k', v⟩ := hd
    by_cases h : k' = k <;> simp [keyGet, h, ih]

theorem keyGet_append_none (l1 l2 : List (String × J)) (k : String)
    (h : keyGet l1 k = none) : keyGet (l1 ++ l2) k = keyGet l2 k := by
  rw [keyGet_append, h]

theorem keyGet_append_some (l1 l2 : List (String × J)) (k : String) (v : J)
    (h : keyGet l1 k = some v) : keyGet (l1 ++ l2) k = some v := by
  rw [keyGet_append, h]

theorem allStrs_map_str (xs : List String) : allStrs (xs.map J.str) = some xs := by
  induction xs with
  | nil => rfl
  | cons hd tl ih => simp [allStrs, ih]

theorem creds_roundtrip (c : OAuthCredentials) (h : c.expires_at < 2 ^ 64) :
    OAuthCredentials.fromJson (OAuthCredentials.toJson c) = some c := by
  obtain ⟨at_, rt, ea, sc, st, rl⟩ := c
  have h' : ea < 18446744073709551616 := h
  cases st <;> cases rl <;>
    simp +decide [OAuthCredentials.toJson, OAuthCredentials.fromJson, optStrField,
          keyGet, keyGet_append, getReqStr, getReqU64, getReqStrList, getOptStr,
          allStrs_map_str, h']

theorem account_roundtrip (a : OAuthAccount) :
    OAuthAccount.fromJson (OAuthAccount.toJson a) = some a := by
  obtain ⟨f1, f2, f3, f4, f5, f6, f7⟩ := a
  cases f1 <;> cases f2 <;> cases f3 <;> cases f4 <;> cases f5 <;> cases f6 <;> cases f7 <;>
    simp +decide [OAuthAccount.toJson, OAuthAccount.fromJson, optStrField,
          optBoolField, keyGet, keyGet_append, getOptStr, getOptBool]

theorem fromJson_oauth_obj (cj aj : J) :
    Profile.fromJson (J.obj [("type", J.str "oauth"), ("credentials", cj), ("account", aj)]) =
      (OAuthCredentials.fromJson cj).bind (fun c =>
        (OAuthAccount.fromJson aj).bind (fun a => some (Profile.oauth c a))) := rfl

theorem profile_roundtrip (p : Profile) (h : p.wf) :
    Profile.fromJson (Profile.toJson p) = some p := by
  cases p with
  | oauth c a =>
    show Profile.fromJson (J.obj [("type", J.str "oauth"),
      ("credentials", OAuthCredentials.toJson c), ("account", OAuthAccount.toJson a)]) = _
    rw [fromJson_oauth_obj, creds_roundtrip c h, account_roundtrip a]
    rfl
  | apiKey k l =>
    cases l <;> rfl

theorem state_roundtrip (s : State) :
    State.fromJson (State.toJson s) = some s := by
  obtain ⟨a⟩ := s
  cases a <;>
    simp +decide [State.toJson, State.fromJson, optStrField, keyGet, getOptStr]

-- --- OAuth refresh engine (src/oauth.rs) ---

/-- The three-way refresh outcome (`RefreshError` in oauth.rs): the refresh
token is dead, or some other failure carrying the underlying error text. -/
inductive RefreshError : Type where
  | invalidGrant : RefreshError
  | other (msg : String) : RefreshError
deriving DecidableEq

/-- An HTTP response as the refresh code observes it: the status code, the
body decoded as UTF-8 (`as_str`, `none` when the bytes are not valid UTF-8)
and the body parsed as JSON (`resp.json()`, `none` on a parse failure).  Both
are views of the same raw bytes; the program never compares the two views, so
their coupling is not modelled. -/
structure HttpResponse where
  status_code : Nat
  bodyStr : Option String
  bodyJson : Option J

/-- `leadsWith pat s`: `pat` is an initial segment of `s`. -/
def leadsWith : List Char → List Char → Bool
  | [], _ => true
  | _ :: _, [] => false
  | a :: pat, b :: s => a == b && leadsWith pat s

/-- `hasSub pat s`: `pat` occurs contiguously somewhere in `s` — the
semantics of Rust `str::contains` with a literal pattern. -/
def hasSub (pat : List Char) : List Char → Bool
  | [] => leadsWith pat []
  | c :: rest => leadsWith pat (c :: rest) || hasSub pat rest

/-- `body.contains "invalid_grant")` from oauth.rs line 37. -/
def containsInvalidGrant (body : String) : Bool :=
  hasSub "invalid_grant".toList body.toList

/-- The 2xx-with-parsed-body tail of `refresh_token` (oauth.rs lines 46-64):
extraction of the three response fields and assembly of the result.  The u64
expiry computation `now_ms() + expires_in * 1000` carries an explicit
`% 2 ^ 64`. -/
def refresh_parse2xx (creds : OAuthCredentials) (now_ms : Nat) (body : J) :
    Except RefreshError OAuthCredentials :=
  match (body.get "access_token").asStr with
  | none => .error (.other "missing access_token in refresh response")
  | some access_token =>
    let refresh_tok := ((body.get "refresh_token").asStr).getD creds.refresh_token
    let expires_in := ((body.get "expires_in").asU64).getD 3600
    let expires_at := (now_ms + expires_in * 1000) % 2 ^ 64
    .ok { access_token := access_token
          refresh_token := refresh_tok
          expires_at := expires_at
          scopes := creds.scopes
          subscription_type := creds.subscription_type
          rate_limit_tier := creds.rate_limit_tier }

/-- `refresh_token` (oauth.rs).  The wall clock (`now_ms()`) and the network
exchange are inputs: the last argument is either a transport/setup error (the
two `map_err` branches before the status check) or the received response. -/
def refresh_token (creds : OAuthCredentials) (now_ms : Nat) :
    Except String HttpResponse → Except RefreshError OAuthCredentials
  | .error e => .error (.other ("HTTP request failed: " ++ e))
  | .ok resp =>
    if resp.status_code < 200 ∨ 300 ≤ resp.status_code then
      let body := resp.bodyStr.getD ""
      if containsInvalidGrant body then
        .error .invalidGrant
      else
        .error (.other ("token refresh failed: " ++ body))
    else
      match resp.bodyJson with
      | none => .error (.other "failed to parse JSON response")
      | some body => refresh_parse2xx creds now_ms body

/-- `is_expired` (oauth.rs): expired when the wall clock plus a 5-minute
buffer reaches the stored expiry; u64 addition carries `% 2 ^ 64`. -/
def is_expired (now_ms : Nat) (creds : OAuthCredentials) : Bool :=
  let buffer_ms := 5 * 60 * 1000
  decide (creds.expires_at ≤ (now_ms + buffer_ms) % 2 ^ 64)

theorem refresh_2xx_never_invalidGrant (creds : OAuthCredentials) (now : Nat)
    (resp : HttpResponse) (h : ¬(resp.status_code < 200 ∨ 300 ≤ resp.status_code)) :
    refresh_token creds now (.ok resp) ≠ .error .invalidGrant := by
  simp only [refresh_token, if_neg h]
  cases hj : resp.bodyJson with
  | none => simp
  | some body =>
    show refresh_parse2xx creds now body ≠ _
    simp only [refresh_parse2xx]
    cases ha : (body.get "access_token").asStr <;> simp

/-- C1: for every refresh response with a non-2xx status the outcome is
InvalidGrant exactly when the body contains the substring `invalid_grant`;
every transport error is `other` carrying the underlying error, every
other non-2xx response is `other` carrying the body, and a 2xx response
whose body fails JSON parsing is `other` carrying the parse error;
InvalidGrant arises for no other input. -/
theorem c1_refresh_classification (creds : OAuthCredentials) (now : Nat)
    (net : Except String HttpResponse) :
    (refresh_token creds now net = .error .invalidGrant ↔
      ∃ resp, net = .ok resp ∧ (resp.status_code < 200 ∨ 300 ≤ resp.status_code) ∧
        containsInvalidGrant (resp.bodyStr.getD "") = true) ∧
    (∀ e, net = .error e →
      refresh_token creds now net = .error (.other ("HTTP request failed: " ++ e))) ∧
    (∀ resp, net = .ok resp → (resp.status_code < 200 ∨ 300 ≤ resp.status_code) →
      containsInvalidGrant (resp.bodyStr.getD "") = false →
      refresh_token creds now net =
        .error (.other ("token refresh failed: " ++ resp.bodyStr.getD ""))) ∧
    (∀ resp, net = .ok resp → ¬(resp.status_code < 200 ∨ 300 ≤ resp.status_code) →
      resp.bodyJson = none →
      refresh_token creds now net = .error (.other "failed to parse JSON response")) := by
  refine ⟨?_, ?_, ?_, ?_⟩
  · constructor
    · intro h
      match net with
      | .error e => simp [refresh_token] at h
      | .ok resp =>
        refine ⟨resp, rfl, ?_⟩
        by_cases hs : resp.status_code < 200 ∨ 300 ≤ resp.status_code
        · refine ⟨hs, ?_⟩
          by_cases hc : containsInvalidGrant (resp.bodyStr.getD "") = true
          · exact hc
          · exfalso
            simp only [refresh_token, if_pos hs, if_neg hc] at h
            simp at h
        · exact absurd h (refresh_2xx_never_invalidGrant creds now resp hs)
    · rintro ⟨resp, rfl, hs, hc⟩
      simp only [refresh_token, if_pos hs, if_pos hc]
  · rintro e rfl
    rfl
  · rintro resp rfl hs hc
    simp only [refresh_token, if_pos hs]
    rw [if_neg (by simp [hc])]
  · rintro resp rfl hs hb
    simp only [refresh_token, if_neg hs, hb]

theorem c1_refresh_classification_witness :
    refresh_token ⟨"tok", "ref", 0, [], none, none⟩ 0
        (.ok ⟨400, some "error: invalid_grant", none⟩) = .error .invalidGrant :=
  (c1_refresh_classification ⟨"tok", "ref", 0, [], none, none⟩ 0
      (.ok ⟨400, some "error: invalid_grant", none⟩)).1.mpr
    ⟨⟨400, some "error: invalid_grant", none⟩, rfl, by decide, by decide⟩

/-- C2: on every 2xx response, `access_token` is required (its absence is a
fatal parse error), `refresh_token` falls back to the input's refresh token,
`expires_in` defaults to 3600 and the new expiry is the wall clock plus
`expires_in` seconds in milliseconds (stated in the u64 non-overflow regime),
and scopes, subscription tier and rate-limit tier are copied unchanged from
the input. -/
theorem c2_refresh_success (creds : OAuthCredentials) (now : Nat)
    (resp : HttpResponse) (body : J)
    (hs1 : 200 ≤ resp.status_code) (hs2 : resp.status_code < 300)
    (hb : resp.bodyJson = some body) :
    ((body.get "access_token").asStr = none →
      refresh_token creds now (.ok resp) =
        .error (.other "missing access_token in refresh response")) ∧
    (∀ tok, (body.get "access_token").asStr = some tok →
      now + ((body.get "expires_in").asU64.getD 3600) * 1000 < 2 ^ 64 →
      refresh_token creds now (.ok resp) =
        .ok { access_token := tok
              refresh_token := ((body.get "refresh_token").asStr).getD creds.refresh_token
              expires_at := now + ((body.get "expires_in").asU64.getD 3600) * 1000
              scopes := creds.scopes
              subscription_type := creds.subscription_type
              rate_limit_tier := creds.rate_limit_tier }) := by
  have hs : ¬(resp.status_code < 200 ∨ 300 ≤ resp.status_code) := by omega
  constructor
  · intro ha
    simp only [refresh_token, if_neg hs, hb]
    show refresh_parse2xx creds now body = _
    simp only [refresh_parse2xx, ha]
  · intro tok ha hov
    simp only [refresh_token, if_neg hs, hb]
    show refresh_parse2xx creds now body = _
    simp only [refresh_parse2xx, ha, Nat.mod_eq_of_lt hov]

theorem c2_refresh_success_witness :
    refresh_token ⟨"tok", "ref", 0, ["s1"], some "pro", none⟩ 5
        (.ok ⟨200, none, some (J.obj [("access_token", J.str "newtok")])⟩) =
      .ok ⟨"newtok", "ref", 5 + 3600 * 1000, ["s1"], some "pro", none⟩ :=
  (c2_refresh_success ⟨"tok", "ref", 0, ["s1"], some "pro", none⟩ 5
      ⟨200, none, some (J.obj [("access_token", J.str "newtok")])⟩
      (J.obj [("access_token", J.str "newtok")])
      (by decide) (by decide) rfl).2 "newtok" rfl (by decide)

/-- C3: `is_expired` is true exactly when the wall clock plus the 5-minute
buffer is at or past the stored expiry (stated in the u64 non-overflow
regime), and the boundary case of exact equality counts as expired. -/
theorem c3_is_expired_boundary (now : Nat) (c : OAuthCredentials)
    (h : now + 5 * 60 * 1000 < 2 ^ 64) :
    (is_expired now c = true ↔ c.expires_at ≤ now + 5 * 60 * 1000) ∧
    (now + 5 * 60 * 1000 = c.expires_at → is_expired now c = true) := by
  have hmod : (now + 5 * 60 * 1000) % 2 ^ 64 = now + 5 * 60 * 1000 := Nat.mod_eq_of_lt h
  constructor
  · simp only [is_expired, hmod, decide_eq_true_eq]
  · intro heq
    simp only [is_expired, hmod, decide_eq_true_eq]
    omega

theorem c3_is_expired_boundary_witness :
    is_expired 0 ⟨"a", "r", 300000, [], none, none⟩ = true :=
  (c3_is_expired_boundary 0 ⟨"a", "r", 300000, [], none, none⟩ (by norm_num)).2 (by norm_num)

-- --- Profile store (src/profile.rs): name validation and file operations ---

/-- Split a character list on the Unix path separator. -/
def splitSlash : List Char → List (List Char)
  | [] => [[]]
  | c :: rest =>
    if c = '/' then [] :: splitSlash rest
    else
      match splitSlash rest with
      | h :: t => (c :: h) :: t
      | [] => [[c]]

/-- A component of `std::path::Path::components` on Unix. -/
inductive PathComponent : Type where
  | rootDir : PathComponent
  | curDir : PathComponent
  | parentDir : PathComponent
  | normal (s : List Char) : PathComponent
deriving DecidableEq

/-- `Path::components` on Unix, per its documented normalization: repeated
separators and trailing separators are collapsed; `.` components are
normalized away except a leading one on a relative path; a leading separator
yields a root component; `..` becomes a parent-directory component. -/
def pathComponents (p : String) : List PathComponent :=
  let cs := p.toList
  let parts := (splitSlash cs).filter (fun s => decide (s ≠ []))
  let root : List PathComponent :=
    if cs.head? = some '/' then [PathComponent.rootDir] else []
  let lead : List PathComponent :=
    if cs.head? = some '/' then []
    else if parts.head? = some ['.'] then [PathComponent.curDir] else []
  let body := ((parts.filter (fun s => decide (s ≠ ['.']))).map
    (fun s => if s = ['.', '.'] then PathComponent.parentDir else PathComponent.normal s))
  root ++ lead ++ body

/-- `validate_profile_name` (profile.rs): the first component must be a
normal component and the total component count must be one. -/
def validate_profile_name (name : String) : Bool :=
  match pathComponents name with
  | [PathComponent.normal _] => true
  | _ => false

/-- On-disk content of one file: absent, bytes that do not decode to a JSON
document, or a JSON document (serde_json text/value round-tripping is
abstracted away). -/
inductive FileData : Type where
  | missing : FileData
  | malformed : FileData
  | json (v : J) : FileData

/-- The files the program touches.  Profile files are keyed by profile name
(the real path is `<config>/profiles/<name>.json`, disjoint from the other
three paths, which live in other directories; two validated names collide
only for exotic accepted names such as `a/` vs `a/.`, and no claim depends
on such a collision). -/
inductive FileId : Type where
  | profileFile (name : String) : FileId
  | stateFile : FileId
  | credentialsFile : FileId
  | claudeJsonFile : FileId
deriving DecidableEq

/-- A filesystem access event.  Reads include existence checks. -/
inductive Ev : Type where
  | read (f : FileId) : Ev
  | write (f : FileId) : Ev
deriving DecidableEq

/-- The filesystem state the program owns or edits. -/
structure World where
  profileFiles : String → FileData
  stateFile : FileData
  credentialsFile : FileData
  claudeJsonFile : FileData

/-- Result of one operation: the returned value or error (anyhow errors are
modelled as message strings), the filesystem afterwards, and the access
trace.  I/O primitives themselves are modelled as reliable (an `io::Error`
on a healthy filesystem is out of scope). -/
structure Out (α : Type) where
  res : Except String α
  world : World
  trace : List Ev

def World.setProfile (w : World) (name : String) (d : FileData) : World :=
  { w with profileFiles := fun n => if n = name then d else w.profileFiles n }

/-- `save_profile` (profile.rs): validate the name, then serialize and write
the profile file (creating or truncating it). -/
def save_profile (name : String) (p : Profile) (w : World) : Out Unit :=
  if validate_profile_name name then
    ⟨.ok (), w.setProfile name (.json (Profile.toJson p)), [.write (.profileFile name)]⟩
  else
    ⟨.error ("invalid profile name: " ++ name), w, []⟩

/-- `load_profile` (profile.rs): validate the name, read the file (a failed
read reports not-found), parse (a parse failure is an error). -/
def load_profile (name : String) (w : World) : Out Profile :=
  if validate_profile_name name then
    match w.profileFiles name with
    | .missing => ⟨.error ("profile " ++ name ++ " not found"), w, [.read (.profileFile name)]⟩
    | .malformed => ⟨.error "malformed profile file", w, [.read (.profileFile name)]⟩
    | .json v =>
      match Profile.fromJson v with
      | some p => ⟨.ok p, w, [.read (.profileFile name)]⟩
      | none => ⟨.error "malformed profile file", w, [.read (.profileFile name)]⟩
  else
    ⟨.error ("invalid profile name: " ++ name), w, []⟩

/-- Decode one state-file content into a `State`, defaulting on every
failure. -/
def stateOfFile : FileData → State
  | .json v => (State.fromJson v).getD { active_profile := none }
  | _ => { active_profile := none }

/-- `load_state` (profile.rs): total — a missing, unreadable or malformed
state file, or one that does not decode to a `State`, yields the default
state (no active profile). -/
def load_state (w : World) : State :=
  stateOfFile w.stateFile

/-- `save_state` (profile.rs). -/
def save_state (s : State) (w : World) : World × List Ev :=
  ({ w with stateFile := .json (State.toJson s) }, [.write .stateFile])

/-- `remove_profile` (profile.rs): validate, fail if the file does not
exist, delete it, and clear the active state exactly when it named this
profile. -/
def remove_profile (name : String) (w : World) : Out Unit :=
  if validate_profile_name name then
    match w.profileFiles name with
    | .missing => ⟨.error ("profile " ++ name ++ " not found"), w, [.read (.profileFile name)]⟩
    | _ =>
      let w1 := w.setProfile name .missing
      let st := load_state w1
      if st.active_profile = some name then
        let (w2, t2) := save_state { active_profile := none } w1
        ⟨.ok (), w2, [.read (.profileFile name), .write (.profileFile name)] ++ t2⟩
      else
        ⟨.ok (), w1, [.read (.profileFile name), .write (.profileFile name)]⟩
  else
    ⟨.error ("invalid profile name: " ++ name), w, []⟩

/-- Insert-or-replace a key in a JSON object field list (`Map::insert`). -/
def insertKey : List (String × J) → String → J → List (String × J)
  | [], key, v => [(key, v)]
  | (k, v') :: rest, key, v =>
    if k = key then (k, v) :: rest else (k, v') :: insertKey rest key v

/-- Remove a key from a JSON object field list (`Map::remove`; serde maps
have unique keys). -/
def removeKey : List (String × J) → String → List (String × J)
  | [], _ => []
  | (k, v) :: rest, key => if k = key then rest else (k, v) :: removeKey rest key

/-- `write_credentials` (profile.rs): read the external credentials file if
it exists (a parse failure falls back to an empty document), set the
`claudeAiOauth` key, write back. -/
def write_credentials (c : OAuthCredentials) (w : World) : World × List Ev :=
  match w.credentialsFile with
  | .missing =>
    ({ w with credentialsFile := .json (J.obj [("claudeAiOauth", OAuthCredentials.toJson c)]) },
     [.write .credentialsFile])
  | .malformed =>
    ({ w with credentialsFile := .json (J.obj [("claudeAiOauth", OAuthCredentials.toJson c)]) },
     [.read .credentialsFile, .write .credentialsFile])
  | .json v =>
    let fields := match v with | J.obj fs => fs | _ => []
    ({ w with credentialsFile := .json (J.obj (insertKey fields "claudeAiOauth" (OAuthCredentials.toJson c))) },
     [.read .credentialsFile, .write .credentialsFile])

/-- `write_oauth_account` (profile.rs): a malformed global config file is a
hard error (`?` on the parse); a non-object document is rewritten unchanged
(`as_object_mut` returns nothing and the insert is skipped). -/
def write_oauth_account (a : OAuthAccount) (w : World) : Out Unit :=
  match w.claudeJsonFile with
  | .missing =>
    ⟨.ok (), { w with claudeJsonFile := .json (J.obj [("oauthAccount", OAuthAccount.toJson a)]) },
     [.write .claudeJsonFile]⟩
  | .malformed => ⟨.error "failed to parse claude.json", w, [.read .claudeJsonFile]⟩
  | .json v =>
    let v2 := match v with
      | J.obj fs => J.obj (insertKey fs "oauthAccount" (OAuthAccount.toJson a))
      | other => other
    ⟨.ok (), { w with claudeJsonFile := .json v2 }, [.read .claudeJsonFile, .write .claudeJsonFile]⟩

/-- `clear_auth` (profile.rs): strip `claudeAiOauth` from the credentials
file (parse failures fall back to an empty document) and strip
`oauthAccount` and `primaryApiKey` from the global config file (whose parse
failure is a hard error); missing files are skipped. -/
def clear_auth (w : World) : Out Unit :=
  let step1 : World × List Ev :=
    match w.credentialsFile with
    | .missing => (w, [])
    | .malformed =>
      ({ w with credentialsFile := .json (J.obj []) },
       [.read .credentialsFile, .write .credentialsFile])
    | .json v =>
      let fields := match v with | J.obj fs => fs | _ => []
      ({ w with credentialsFile := .json (J.obj (removeKey fields "claudeAiOauth")) },
       [.read .credentialsFile, .write .credentialsFile])
  let w1 := step1.1
  let t1 := step1.2
  match w1.claudeJsonFile with
  | .missing => ⟨.ok (), w1, t1⟩
  | .malformed => ⟨.error "failed to parse claude.json", w1, t1 ++ [.read .claudeJsonFile]⟩
  | .json v =>
    let v2 := match v with
      | J.obj fs => J.obj (removeKey (removeKey fs "oauthAccount") "primaryApiKey")
      | other => other
    ⟨.ok (), { w1 with claudeJsonFile := .json v2 }, t1 ++ [.read .claudeJsonFile, .write .claudeJsonFile]⟩

-- --- Command layer (src/main.rs) ---

/-- Modelled from the spec: `read_oauth_credentials` is imported by main.rs
from the profile module but its definition is not among the provided source
files.  Spec section 4.4 step 4 reads back "either a full OAuth credential +
account bundle, or a static API key" that the login flow wrote, and section 6
identifies the credentials file's `claudeAiOauth` key as the OAuth bundle
this system reads and writes.  Modelled as: the value of that key when the
external credentials file exists and parses as JSON, nothing otherwise. -/
def read_oauth_credentials (w : World) : Option J × List Ev :=
  match w.credentialsFile with
  | .json v => (v.lookup "claudeAiOauth", [.read .credentialsFile])
  | _ => (none, [.read .credentialsFile])

/-- The `primaryApiKey` extraction in main.rs: read the global config file,
parse it, take the key's value as a string; every failure yields nothing. -/
def read_primary_api_key (w : World) : Option String × List Ev :=
  match w.claudeJsonFile with
  | .json v => ((v.lookup "primaryApiKey").bind J.asStr, [.read .claudeJsonFile])
  | _ => (none, [.read .claudeJsonFile])

/-- The `oauthAccount` extraction in main.rs: like the API key read, but any
failure falls back to the all-absent default account. -/
def read_oauth_account (w : World) : OAuthAccount × List Ev :=
  match w.claudeJsonFile with
  | .json v => (((v.lookup "oauthAccount").bind OAuthAccount.fromJson).getD {}, [.read .claudeJsonFile])
  | _ => ({}, [.read .claudeJsonFile])

/-- Outcome of the interactive `claude /login` subprocess: a non-zero exit,
or a zero exit together with the external auth files as the login flow left
them (the subprocess owns those files while it runs). -/
inductive LoginResult : Type where
  | failed : LoginResult
  | ok (credsFile : FileData) (claudeJson : FileData) : LoginResult

/-- `reauthenticate_profile` (main.rs): clear the external auth, run the
interactive login, read back what it wrote (OAuth bundle takes precedence,
then API key, else a fatal no-credentials error), and save it as the named
profile.  It does not touch the active state. -/
def reauthenticate_profile (name : String) (login : LoginResult) (w : World) : Out Profile :=
  match clear_auth w with
  | ⟨.error e, w1, t1⟩ => ⟨.error e, w1, t1⟩
  | ⟨.ok _, w1, t1⟩ =>
    match login with
    | .failed => ⟨.error "claude exited with failure - re-authentication failed", w1, t1⟩
    | .ok cf jf =>
      let w2 : World := { w1 with credentialsFile := cf, claudeJsonFile := jf }
      let r1 := read_oauth_credentials w2
      let r2 := read_primary_api_key w2
      match r1.1 with
      | some v =>
        match OAuthCredentials.fromJson v with
        | none => ⟨.error "failed to parse OAuth credentials", w2, t1 ++ r1.2 ++ r2.2⟩
        | some credentials =>
          let r3 := read_oauth_account w2
          let p := Profile.oauth credentials r3.1
          match save_profile name p w2 with
          | ⟨.error e, w3, t5⟩ => ⟨.error e, w3, t1 ++ r1.2 ++ r2.2 ++ r3.2 ++ t5⟩
          | ⟨.ok _, w3, t5⟩ => ⟨.ok p, w3, t1 ++ r1.2 ++ r2.2 ++ r3.2 ++ t5⟩
      | none =>
        match r2.1 with
        | some key =>
          let p := Profile.apiKey key none
          match save_profile name p w2 with
          | ⟨.error e, w3, t5⟩ => ⟨.error e, w3, t1 ++ r1.2 ++ r2.2 ++ t5⟩
          | ⟨.ok _, w3, t5⟩ => ⟨.ok p, w3, t1 ++ r1.2 ++ r2.2 ++ t5⟩
        | none => ⟨.error "no credentials found after login - did auth complete?", w2, t1 ++ r1.2 ++ r2.2⟩

/-- The shared tail of `cmd_use`'s OAuth branch (main.rs lines 242-249):
synchronize credentials and account into the external files, then point the
active state at this profile. -/
def useSyncTail (name : String) (credentials : OAuthCredentials)
    (account : OAuthAccount) (w : World) : Out Unit :=
  let s1 := write_credentials credentials w
  match write_oauth_account account s1.1 with
  | ⟨.error e, w2, t2⟩ => ⟨.error e, w2, s1.2 ++ t2⟩
  | ⟨.ok _, w2, t2⟩ =>
    let st := load_state w2
    let s3 := save_state { st with active_profile := some name } w2
    ⟨.ok (), s3.1, s1.2 ++ t2 ++ s3.2⟩

/-- `cmd_use` (main.rs): load the profile; for OAuth refresh when expired
(persisting the refreshed tokens, or re-authenticating on InvalidGrant, or
aborting on any other refresh failure), then synchronize into the external
files and mark active; for an API key only mark active and print hints. -/
def cmd_use (name : String) (now : Nat) (net : Except String HttpResponse)
    (login : LoginResult) (w : World) : Out Unit :=
  match load_profile name w with
  | ⟨.error e, w1, t1⟩ => ⟨.error e, w1, t1⟩
  | ⟨.ok (Profile.oauth credentials account), w1, t1⟩ =>
    if is_expired now credentials then
      match refresh_token credentials now net with
      | .ok refreshed =>
        match save_profile name (.oauth refreshed account) w1 with
        | ⟨.error e, w2, t2⟩ => ⟨.error e, w2, t1 ++ t2⟩
        | ⟨.ok _, w2, t2⟩ =>
          let o := useSyncTail name refreshed account w2
          ⟨o.res, o.world, t1 ++ t2 ++ o.trace⟩
      | .error .invalidGrant =>
        match reauthenticate_profile name login w1 with
        | ⟨.error e, w2, t2⟩ => ⟨.error e, w2, t1 ++ t2⟩
        | ⟨.ok (Profile.oauth newCreds newAccount), w2, t2⟩ =>
          let s3 := write_credentials newCreds w2
          match write_oauth_account newAccount s3.1 with
          | ⟨.error e, w4, t4⟩ => ⟨.error e, w4, t1 ++ t2 ++ s3.2 ++ t4⟩
          | ⟨.ok _, w4, t4⟩ =>
            let st := load_state w4
            let s5 := save_state { st with active_profile := some name } w4
            ⟨.ok (), s5.1, t1 ++ t2 ++ s3.2 ++ t4 ++ s5.2⟩
        | ⟨.ok (Profile.apiKey _ _), w2, t2⟩ =>
          ⟨.error "re-authentication resulted in non-OAuth profile", w2, t1 ++ t2⟩
      | .error (.other e) => ⟨.error e, w1, t1⟩
    else
      let o := useSyncTail name credentials account w1
      ⟨o.res, o.world, t1 ++ o.trace⟩
  | ⟨.ok (Profile.apiKey _ _), w1, t1⟩ =>
    let st := load_state w1
    let s2 := save_state { st with active_profile := some name } w1
    ⟨.ok (), s2.1, t1 ++ s2.2⟩

/-- A successful process-image replacement: the command executed and the
environment variables injected into it on top of the inherited environment.
`exec` does not return on success, so a `cmd_exec` result of this shape means
the Rust function never returned — every value the Rust `cmd_exec` actually
returns is an error. -/
structure ExecCall where
  prog : List String
  env : List (String × String)
deriving DecidableEq

/-- `cmd_exec` (main.rs): load the profile, refresh or re-authenticate an
expired OAuth token exactly as `cmd_use` does (but without synchronizing the
external files and without touching the active state), then replace the
process image with the requested command, injecting exactly one
profile-derived environment variable. -/
def cmd_exec (name : String) (cmd : List String) (now : Nat)
    (net : Except String HttpResponse) (login : LoginResult) (w : World) : Out ExecCall :=
  if cmd.isEmpty then ⟨.error "no command specified", w, []⟩
  else
    match load_profile name w with
    | ⟨.error e, w1, t1⟩ => ⟨.error e, w1, t1⟩
    | ⟨.ok (Profile.oauth credentials account), w1, t1⟩ =>
      if is_expired now credentials then
        match refresh_token credentials now net with
        | .ok refreshed =>
          match save_profile name (.oauth refreshed account) w1 with
          | ⟨.error e, w2, t2⟩ => ⟨.error e, w2, t1 ++ t2⟩
          | ⟨.ok _, w2, t2⟩ =>
            ⟨.ok ⟨cmd, [("CLAUDE_CODE_OAUTH_TOKEN", refreshed.access_token)]⟩, w2, t1 ++ t2⟩
        | .error .invalidGrant =>
          match reauthenticate_profile name login w1 with
          | ⟨.error e, w2, t2⟩ => ⟨.error e, w2, t1 ++ t2⟩
          | ⟨.ok (Profile.oauth newCreds _), w2, t2⟩ =>
            ⟨.ok ⟨cmd, [("CLAUDE_CODE_OAUTH_TOKEN", newCreds.access_token)]⟩, w2, t1 ++ t2⟩
          | ⟨.ok (Profile.apiKey _ _), w2, t2⟩ =>
            ⟨.error "re-authentication resulted in non-OAuth profile", w2, t1 ++ t2⟩
        | .error (.other e) => ⟨.error e, w1, t1⟩
      else
        ⟨.ok ⟨cmd, [("CLAUDE_CODE_OAUTH_TOKEN", credentials.access_token)]⟩, w1, t1⟩
    | ⟨.ok (Profile.apiKey key _), w1, t1⟩ =>
      ⟨.ok ⟨cmd, [("ANTHROPIC_API_KEY", key)]⟩, w1, t1⟩

-- --- Shared concrete fixtures for closed theorems ---

/-- A filesystem with no files. -/
def emptyWorld : World :=
  { profileFiles := fun _ => .missing
    stateFile := .missing
    credentialsFile := .missing
    claudeJsonFile := .missing }

-- --- C5 ---

/-- The spec's notion of an invalid profile name: contains a path separator,
or is empty, `.` or `..`. -/
def specInvalidName (n : String) : Prop :=
  n = "" ∨ n = "." ∨ n = ".." ∨ '/' ∈ n.toList

/-- C5 (counterexample): the name `a/` contains a path separator — invalid
per the claim — yet `save_profile` accepts it and performs a filesystem
write, because Rust's `Path::components` normalizes the trailing separator
away and the name passes `validate_profile_name`. -/
theorem c5_counterexample :
    specInvalidName "a/" ∧
    validate_profile_name "a/" = true ∧
    (save_profile "a/" (Profile.apiKey "k" none) emptyWorld).res = .ok () ∧
    (save_profile "a/" (Profile.apiKey "k" none) emptyWorld).trace =
      [Ev.write (.profileFile "a/")] := by
  refine ⟨by right; right; right; decide, by decide, rfl, rfl⟩

/-- C5 (amended): `save_profile` and `load_profile` fail with a validation
error and touch no file exactly for the names `validate_profile_name`
rejects — those whose `Path::components` normalization is not one single
normal component: the empty string, `.`, `..`, absolute names and names with
a separator between two components.  A name whose separators are only
trailing or followed by `.` components (such as `a/`) normalizes to a single
normal component, passes validation and reaches the filesystem. -/
theorem c5_validation_before_io (name : String) (p : Profile) (w : World)
    (h : validate_profile_name name = false) :
    ((save_profile name p w).res = .error ("invalid profile name: " ++ name) ∧
     (save_profile name p w).world = w ∧
     (save_profile name p w).trace = []) ∧
    ((load_profile name w).res = .error ("invalid profile name: " ++ name) ∧
     (load_profile name w).world = w ∧
     (load_profile name w).trace = []) ∧
    validate_profile_name "" = false ∧
    validate_profile_name "." = false ∧
    validate_profile_name ".." = false ∧
    validate_profile_name "/a" = false ∧
    validate_profile_name "a/b" = false ∧
    validate_profile_name "a/" = true := by
  refine ⟨⟨?_, ?_, ?_⟩, ⟨?_, ?_, ?_⟩, by decide, by decide, by decide, by decide,
    by decide, by decide⟩ <;>
    simp [save_profile, load_profile, h]

theorem c5_validation_before_io_witness :
    (save_profile ".." (Profile.apiKey "k" none) emptyWorld).trace = [] ∧
    (load_profile ".." emptyWorld).trace = [] :=
  ⟨(c5_validation_before_io ".." (Profile.apiKey "k" none) emptyWorld (by decide)).1.2.2,
   (c5_validation_before_io ".." (Profile.apiKey "k" none) emptyWorld (by decide)).2.1.2.2⟩

-- --- C6 ---

theorem keyGet_optStrField_self (k : String) (x : Option String) :
    keyGet (optStrField k x) k = x.map J.str := by
  cases x <;> simp [optStrField, keyGet]

theorem keyGet_optStrField_ne (k key : String) (x : Option String) (h : ¬ k = key) :
    keyGet (optStrField k x) key = none := by
  cases x <;> simp [optStrField, keyGet, h]

theorem keyGet_optBoolField_self (k : String) (x : Option Bool) :
    keyGet (optBoolField k x) k = x.map J.bool := by
  cases x <;> simp [optBoolField, keyGet]

theorem keyGet_optBoolField_ne (k key : String) (x : Option Bool) (h : ¬ k = key) :
    keyGet (optBoolField k x) key = none := by
  cases x <;> simp [optBoolField, keyGet, h]

/-- C6: for every valid profile name and every profile (stated with the u64
bound the Rust struct guarantees for the expiry field), saving then loading
under the same name returns the identical profile; and each absent optional
field is omitted from the stored encoding (its key is bound exactly when the
field is present), so it reads back as absent. -/
theorem c6_save_load_roundtrip (name : String) (p : Profile) (w : World)
    (hname : validate_profile_name name = true) (hwf : p.wf) :
    ((save_profile name p w).res = .ok () ∧
     (load_profile name (save_profile name p w).world).res = .ok p) ∧
    (∀ c : OAuthCredentials,
      (OAuthCredentials.toJson c).lookup "subscriptionType" = c.subscription_type.map J.str) ∧
    (∀ c : OAuthCredentials,
      (OAuthCredentials.toJson c).lookup "rateLimitTier" = c.rate_limit_tier.map J.str) ∧
    (∀ k l, (Profile.toJson (Profile.apiKey k l)).lookup "label" = l.map J.str) ∧
    (∀ a : OAuthAccount,
      (OAuthAccount.toJson a).lookup "accountUuid" = a.account_uuid.map J.str ∧
      (OAuthAccount.toJson a).lookup "emailAddress" = a.email_address.map J.str ∧
      (OAuthAccount.toJson a).lookup "organizationUuid" = a.organization_uuid.map J.str ∧
      (OAuthAccount.toJson a).lookup "displayName" = a.display_name.map J.str ∧
      (OAuthAccount.toJson a).lookup "organizationRole" = a.organization_role.map J.str ∧
      (OAuthAccount.toJson a).lookup "organizationName" = a.organization_name.map J.str ∧
      (OAuthAccount.toJson a).lookup "hasExtraUsageEnabled" =
        a.has_extra_usage_enabled.map J.bool) := by
  refine ⟨⟨?_, ?_⟩, ?_, ?_, ?_, ?_⟩
  · simp [save_profile, hname]
  · simp [save_profile, load_profile, hname, World.setProfile, profile_roundtrip p hwf]
  · intro c
    cases hst : c.subscription_type <;>
      simp +decide [OAuthCredentials.toJson, J.lookup, keyGet,
        keyGet_append_none, keyGet_append_some,
        keyGet_optStrField_self, keyGet_optStrField_ne, hst]
  · intro c
    cases hrl : c.rate_limit_tier <;>
      simp +decide [OAuthCredentials.toJson, J.lookup, keyGet,
        keyGet_append_none, keyGet_append_some,
        keyGet_optStrField_self, keyGet_optStrField_ne, hrl]
  · intro k l
    cases l <;>
      simp +decide [Profile.toJson, J.lookup, keyGet,
        keyGet_append_none, keyGet_append_some,
        keyGet_optStrField_self, keyGet_optStrField_ne]
  · intro a
    refine ⟨?_, ?_, ?_, ?_, ?_, ?_, ?_⟩
    · cases h1 : a.account_uuid <;>
        simp +decide [OAuthAccount.toJson, J.lookup, keyGet,
          keyGet_append_none, keyGet_append_some,
          keyGet_optStrField_self, keyGet_optStrField_ne,
          keyGet_optBoolField_self, keyGet_optBoolField_ne, h1]
    · cases h2 : a.email_address <;>
        simp +decide [OAuthAccount.toJson, J.lookup, keyGet,
          keyGet_append_none, keyGet_append_some,
          keyGet_optStrField_self, keyGet_optStrField_ne,
          keyGet_optBoolField_self, keyGet_optBoolField_ne, h2]
    · cases h3 : a.organization_uuid <;>
        simp +decide [OAuthAccount.toJson, J.lookup, keyGet,
          keyGet_append_none, keyGet_append_some,
          keyGet_optStrField_self, keyGet_optStrField_ne,
          keyGet_optBoolField_self, keyGet_optBoolField_ne, h3]
    · cases h4 : a.display_name <;>
        simp +decide [OAuthAccount.toJson, J.lookup, keyGet,
          keyGet_append_none, keyGet_append_some,
          keyGet_optStrField_self, keyGet_optStrField_ne,
          keyGet_optBoolField_self, keyGet_optBoolField_ne, h4]
    · cases h5 : a.organization_role <;>
        simp +decide [OAuthAccount.toJson, J.lookup, keyGet,
          keyGet_append_none, keyGet_append_some,
          keyGet_optStrField_self, keyGet_optStrField_ne,
          keyGet_optBoolField_self, keyGet_optBoolField_ne, h5]
    · cases h6 : a.organization_name <;>
        simp +decide [OAuthAccount.toJson, J.lookup, keyGet,
          keyGet_append_none, keyGet_append_some,
          keyGet_optStrField_self, keyGet_optStrField_ne,
          keyGet_optBoolField_self, keyGet_optBoolField_ne, h6]
    · cases h7 : a.has_extra_usage_enabled <;>
        simp +decide [OAuthAccount.toJson, J.lookup, keyGet,
          keyGet_append_none, keyGet_append_some,
          keyGet_optStrField_self, keyGet_optStrField_ne,
          keyGet_optBoolField_self, keyGet_optBoolField_ne, h7]

theorem c6_save_load_roundtrip_witness :
    (load_profile "work"
      (save_profile "work"
        (Profile.oauth ⟨"tok", "ref", 1000, ["s"], none, some "t"⟩
          { email_address := some "e" })
        emptyWorld).world).res =
      .ok (Profile.oauth ⟨"tok", "ref", 1000, ["s"], none, some "t"⟩
        { email_address := some "e" }) :=
  (c6_save_load_roundtrip "work"
    (Profile.oauth ⟨"tok", "ref", 1000, ["s"], none, some "t"⟩
      { email_address := some "e" })
    emptyWorld (by decide)
    (by show (1000 : Nat) < 2 ^ 64; norm_num)).1.2

-- --- C10 ---

/-- C10: `load_state` is total and silent — a missing or malformed state
file, or one that does not decode to a `State`, yields the default state
with no active profile; only a well-formed state file yields its stored
active profile. -/
theorem c10_load_state_total (w : World) :
    (w.stateFile = .missing → load_state w = { active_profile := none }) ∧
    (w.stateFile = .malformed → load_state w = { active_profile := none }) ∧
    (∀ v, w.stateFile = .json v → State.fromJson v = none →
      load_state w = { active_profile := none }) ∧
    (∀ v s, w.stateFile = .json v → State.fromJson v = some s → load_state w = s) := by
  refine ⟨fun h => ?_, fun h => ?_, fun v h hn => ?_, fun v s h hs => ?_⟩ <;>
    simp [load_state, stateOfFile, h, *]

theorem c10_load_state_total_witness :
    load_state { emptyWorld with stateFile := .malformed } = { active_profile := none } :=
  (c10_load_state_total { emptyWorld with stateFile := .malformed }).2.1 rfl

-- --- C7 ---

theorem load_state_json_state (w : World) (s : State)
    (h : w.stateFile = .json (State.toJson s)) : load_state w = s := by
  simp [load_state, stateOfFile, h, state_roundtrip]

/-- C7: for a valid name, `remove_profile` on an existing profile deletes
its file and clears the active state exactly when it pointed at that name
(leaving the state file untouched otherwise), and on a missing profile fails
changing nothing. -/
theorem c7_remove_profile (name : String) (w : World)
    (hv : validate_profile_name name = true) :
    (w.profileFiles name = .missing →
      (remove_profile name w).res = .error ("profile " ++ name ++ " not found") ∧
      (remove_profile name w).world = w) ∧
    (w.profileFiles name ≠ .missing →
      (remove_profile name w).res = .ok () ∧
      (remove_profile name w).world.profileFiles name = .missing ∧
      ((load_state w).active_profile = some name →
        load_state (remove_profile name w).world = { active_profile := none }) ∧
      ((load_state w).active_profile ≠ some name →
        (remove_profile name w).world.stateFile = w.stateFile)) := by
  constructor
  · intro hm
    simp [remove_profile, hv, hm]
  · intro hm
    by_cases hact : (load_state w).active_profile = some name
    · have hB : (load_state (w.setProfile name FileData.missing)).active_profile =
          some name := hact
      have hC : (load_state { w with profileFiles :=
          fun n => if n = name then FileData.missing else w.profileFiles n }).active_profile =
          some name := hact
      have hD : (stateOfFile w.stateFile).active_profile = some name := hact
      cases hpf : w.profileFiles name with
      | missing => exact absurd hpf hm
      | malformed =>
        refine ⟨?_, ?_, fun _ => ?_, fun hne => absurd hact hne⟩ <;>
          simp [remove_profile, hv, hpf, hB, hC, save_state, World.setProfile]
        exact load_state_json_state _ _ rfl
      | json v =>
        refine ⟨?_, ?_, fun _ => ?_, fun hne => absurd hact hne⟩ <;>
          simp [remove_profile, hv, hpf, hB, hC, save_state, World.setProfile]
        exact load_state_json_state _ _ rfl
    · have hB : ¬ (load_state (w.setProfile name FileData.missing)).active_profile =
          some name := hact
      have hC : ¬ (load_state { w with profileFiles :=
          fun n => if n = name then FileData.missing else w.profileFiles n }).active_profile =
          some name := hact
      have hD : ¬ (stateOfFile w.stateFile).active_profile = some name := hact
      cases hpf : w.profileFiles name with
      | missing => exact absurd hpf hm
      | malformed =>
        refine ⟨?_, ?_, fun hc => absurd hc hact, fun _ => ?_⟩ <;>
          simp [remove_profile, hv, hpf, hB, hC, World.setProfile]
      | json v =>
        refine ⟨?_, ?_, fun hc => absurd hc hact, fun _ => ?_⟩ <;>
          simp [remove_profile, hv, hpf, hB, hC, World.setProfile]

/-- A store with one API-key profile `p` that is also the active profile. -/
def worldWithActiveP : World :=
  { emptyWorld with
      profileFiles := fun n =>
        if n = "p" then .json (Profile.toJson (Profile.apiKey "k" none)) else .missing
      stateFile := .json (State.toJson { active_profile := some "p" }) }

theorem c7_remove_profile_witness :
    load_state (remove_profile "p" worldWithActiveP).world = { active_profile := none } :=
  ((c7_remove_profile "p" worldWithActiveP (by decide)).2
    (by simp [worldWithActiveP, emptyWorld])).2.2.1 rfl

-- --- C4 ---

theorem clear_auth_frame (w : World) :
    (clear_auth w).world.profileFiles = w.profileFiles ∧
    (clear_auth w).world.stateFile = w.stateFile := by
  cases hc : w.credentialsFile <;> cases hj : w.claudeJsonFile <;>
    simp [clear_auth, hc, hj]

theorem reauth_failed_frame (name : String) (w : World) :
    (∃ msg, (reauthenticate_profile name .failed w).res = .error msg) ∧
    (reauthenticate_profile name .failed w).world.profileFiles = w.profileFiles := by
  have hpf := (clear_auth_frame w).1
  rcases hca : clear_auth w with ⟨r, w1, t1⟩
  rw [hca] at hpf
  simp only [reauthenticate_profile, hca]
  cases r with
  | error e => exact ⟨⟨e, rfl⟩, hpf⟩
  | ok u => exact ⟨⟨_, rfl⟩, hpf⟩

/-- C4: during `use` of an expired OAuth profile, a transient refresh
failure aborts with exactly that error and leaves the whole filesystem — in
particular the profile's file — untouched; and when the refresh reports
InvalidGrant but the interactive login subprocess exits non-zero, the
operation aborts and the profile's file still holds the stale pre-refresh
bytes. -/
theorem c4_use_failure_frames (w : World) (name : String) (now : Nat)
    (net : Except String HttpResponse) (login : LoginResult)
    (v : J) (c : OAuthCredentials) (a : OAuthAccount)
    (hv : validate_profile_name name = true)
    (hf : w.profileFiles name = .json v)
    (hp : Profile.fromJson v = some (Profile.oauth c a))
    (he : is_expired now c = true) :
    (∀ e, refresh_token c now net = .error (.other e) →
      (cmd_use name now net login w).res = .error e ∧
      (cmd_use name now net login w).world = w) ∧
    (refresh_token c now net = .error .invalidGrant → login = .failed →
      (∃ msg, (cmd_use name now net login w).res = .error msg) ∧
      (cmd_use name now net login w).world.profileFiles name = .json v) := by
  have hload : load_profile name w =
      ⟨.ok (Profile.oauth c a), w, [.read (.profileFile name)]⟩ := by
    simp [load_profile, hv, hf, hp]
  constructor
  · intro e hre
    simp [cmd_use, hload, he, hre]
  · intro hre hlog
    subst hlog
    obtain ⟨⟨msg, hmsg⟩, hpf⟩ := reauth_failed_frame name w
    rcases hra : reauthenticate_profile name .failed w with ⟨r, w2, t2⟩
    rw [hra] at hmsg hpf
    have hpf2 : w2.profileFiles = w.profileFiles := by simpa using hpf
    cases r with
    | ok p =>
      exfalso
      simp at hmsg
    | error e =>
      have hem : e = msg := by simpa using hmsg
      subst hem
      constructor
      · exact ⟨e, by simp [cmd_use, hload, he, hre, hra]⟩
      · simp [cmd_use, hload, he, hre, hra, hpf2, hf]

/-- A store with an expired OAuth profile `p`, a different active profile,
and well-formed external config files. -/
def staleCreds : OAuthCredentials := ⟨"oldtok", "oldref", 1000, [], none, none⟩

def worldWithExpired : World :=
  { profileFiles := fun n =>
      if n = "p" then .json (Profile.toJson (Profile.oauth staleCreds {})) else .missing
    stateFile := .json (State.toJson { active_profile := some "other" })
    credentialsFile := .json (J.obj [])
    claudeJsonFile := .json (J.obj []) }

theorem c4_use_failure_frames_witness :
    (cmd_use "p" 1000000 (.error "connection refused") .failed worldWithExpired).res =
      .error "HTTP request failed: connection refused" ∧
    (cmd_use "p" 1000000 (.error "connection refused") .failed worldWithExpired).world =
      worldWithExpired :=
  (c4_use_failure_frames worldWithExpired "p" 1000000 (.error "connection refused") .failed
      (Profile.toJson (Profile.oauth staleCreds {})) staleCreds {}
      (by decide) rfl rfl (by decide)).1
    "HTTP request failed: connection refused" rfl

-- --- C9 ---

theorem load_profile_world (name : String) (w : World) :
    (load_profile name w).world = w := by
  by_cases hv : validate_profile_name name = true
  · cases hf : w.profileFiles name with
    | missing => simp [load_profile, hv, hf]
    | malformed => simp [load_profile, hv, hf]
    | json v => cases hp : Profile.fromJson v <;> simp [load_profile, hv, hf, hp]
  · simp [load_profile, hv]

theorem load_profile_ok (name : String) (w : World) (p : Profile)
    (h : (load_profile name w).res = .ok p) :
    validate_profile_name name = true ∧
    ∃ v, w.profileFiles name = .json v ∧ Profile.fromJson v = some p := by
  by_cases hv : validate_profile_name name = true
  · cases hf : w.profileFiles name with
    | missing => simp [load_profile, hv, hf] at h
    | malformed => simp [load_profile, hv, hf] at h
    | json v =>
      cases hp : Profile.fromJson v with
      | none => simp [load_profile, hv, hf, hp] at h
      | some p2 =>
        simp [load_profile, hv, hf, hp] at h
        exact ⟨hv, v, rfl, by rw [hp, h]⟩
  · simp [load_profile, hv] at h

/-- C9: for an API-key profile, `exec` launches the requested command with
exactly `ANTHROPIC_API_KEY` bound to the stored key, the external tool's
config files are never opened (the only access is the profile-file read) and
nothing on disk changes; and every successful process replacement, on every
path, injects exactly one profile-derived variable determined by the loaded
profile: `ANTHROPIC_API_KEY` bound to the stored API key for API-key
profiles, and `CLAUDE_CODE_OAUTH_TOKEN` bound to the resolved OAuth access
token for OAuth profiles — the stored token when not expired, the refreshed
token after a successful refresh, and the freshly captured token after
reauthentication.  In the model a non-error `cmd_exec` result denotes the
replaced process image: the Rust function itself returns only errors. -/
theorem c9_exec_env :
    (∀ (name : String) (cmd : List String) (now : Nat) (net : Except String HttpResponse)
        (login : LoginResult) (w : World) (v : J) (key : String) (lbl : Option String),
      validate_profile_name name = true →
      w.profileFiles name = .json v →
      Profile.fromJson v = some (.apiKey key lbl) →
      cmd.isEmpty = false →
      (cmd_exec name cmd now net login w).res = .ok ⟨cmd, [("ANTHROPIC_API_KEY", key)]⟩ ∧
      (cmd_exec name cmd now net login w).world = w ∧
      (cmd_exec name cmd now net login w).trace = [.read (.profileFile name)]) ∧
    (∀ (name : String) (cmd : List String) (now : Nat) (net : Except String HttpResponse)
        (login : LoginResult) (w : World) (call : ExecCall),
      (cmd_exec name cmd now net login w).res = .ok call →
      call.prog = cmd ∧
      ∃ v, validate_profile_name name = true ∧ w.profileFiles name = .json v ∧
        ((∃ key lbl, Profile.fromJson v = some (Profile.apiKey key lbl) ∧
            call.env = [("ANTHROPIC_API_KEY", key)]) ∨
         (∃ c a, Profile.fromJson v = some (Profile.oauth c a) ∧
            ((is_expired now c = false ∧
               call.env = [("CLAUDE_CODE_OAUTH_TOKEN", c.access_token)]) ∨
             (is_expired now c = true ∧
               ∃ rc, refresh_token c now net = .ok rc ∧
                 call.env = [("CLAUDE_CODE_OAUTH_TOKEN", rc.access_token)]) ∨
             (is_expired now c = true ∧
               refresh_token c now net = .error .invalidGrant ∧
               ∃ nc na, (reauthenticate_profile name login w).res =
                   .ok (Profile.oauth nc na) ∧
                 call.env = [("CLAUDE_CODE_OAUTH_TOKEN", nc.access_token)]))))) := by
  constructor
  · intro name cmd now net login w v key lbl hv hf hp hc
    have hload : load_profile name w =
        ⟨.ok (Profile.apiKey key lbl), w, [.read (.profileFile name)]⟩ := by
      simp [load_profile, hv, hf, hp]
    refine ⟨?_, ?_, ?_⟩ <;> simp [cmd_exec, hc, hload]
  · intro name cmd now net login w call h
    by_cases hce : cmd.isEmpty = true
    · simp [cmd_exec, hce] at h
    · have hc' : cmd.isEmpty = false := by simpa using hce
      have hlw := load_profile_world name w
      rcases hl : load_profile name w with ⟨r1, w1, t1⟩
      rw [hl] at hlw
      have hw1 : w = w1 := by simpa using hlw.symm
      subst hw1
      simp only [cmd_exec, hc', Bool.false_eq_true, if_false, hl] at h
      cases r1 with
      | error e => simp at h
      | ok p =>
        obtain ⟨hv, v, hf, hp⟩ := load_profile_ok name w p (by rw [hl])
        cases p with
        | apiKey k l =>
          simp only at h
          obtain rfl := Except.ok.inj h
          exact ⟨rfl, v, hv, hf, Or.inl ⟨k, l, hp, rfl⟩⟩
        | oauth c a =>
          by_cases he : is_expired now c = true
          · simp only [he, if_true] at h
            cases hr : refresh_token c now net with
            | ok rc =>
              simp only [hr] at h
              rcases hs : save_profile name (.oauth rc a) w with ⟨rs, w2, t2⟩
              simp only [hs] at h
              cases rs with
              | error e => simp at h
              | ok u =>
                simp only at h
                obtain rfl := Except.ok.inj h
                exact ⟨rfl, v, hv, hf,
                  Or.inr ⟨c, a, hp, Or.inr (Or.inl ⟨he, rc, hr, rfl⟩)⟩⟩
            | error err =>
              cases err with
              | other msg => simp [hr] at h
              | invalidGrant =>
                simp only [hr] at h
                rcases hra : reauthenticate_profile name login w with ⟨rr, w2, t2⟩
                simp only [hra] at h
                cases rr with
                | error e => simp at h
                | ok p2 =>
                  cases p2 with
                  | oauth nc na =>
                    simp only at h
                    obtain rfl := Except.ok.inj h
                    refine ⟨rfl, v, hv, hf,
                      Or.inr ⟨c, a, hp, Or.inr (Or.inr ⟨he, hr, nc, na, ?_, rfl⟩)⟩⟩
                    simp [hra]
                  | apiKey _ _ => simp at h
          · have he' : is_expired now c = false := by simpa using he
            simp only [he', Bool.false_eq_true, if_false] at h
            obtain rfl := Except.ok.inj h
            exact ⟨rfl, v, hv, hf, Or.inr ⟨c, a, hp, Or.inl ⟨he', rfl⟩⟩⟩

theorem c9_exec_env_witness :
    (cmd_exec "s" ["mycommand", "--flag"] 0 (.error "net") .failed
      { emptyWorld with profileFiles := fun n =>
          if n = "s" then .json (Profile.toJson (Profile.apiKey "sk-key" none)) else .missing }).res =
      .ok ⟨["mycommand", "--flag"], [("ANTHROPIC_API_KEY", "sk-key")]⟩ :=
  (c9_exec_env.1 "s" ["mycommand", "--flag"] 0 (.error "net") .failed
    { emptyWorld with profileFiles := fun n =>
        if n = "s" then .json (Profile.toJson (Profile.apiKey "sk-key" none)) else .missing }
    (Profile.toJson (Profile.apiKey "sk-key" none)) "sk-key" none
    (by decide) rfl rfl rfl).1

-- --- C8 ---

theorem save_profile_ok_world (name : String) (p : Profile) (w : World)
    (h : (save_profile name p w).res = .ok ()) :
    (save_profile name p w).world = w.setProfile name (.json (Profile.toJson p)) := by
  by_cases hv : validate_profile_name name = true <;> simp [save_profile, hv] at h ⊢

theorem write_credentials_frame (c : OAuthCredentials) (w : World) :
    (write_credentials c w).1.profileFiles = w.profileFiles ∧
    (write_credentials c w).1.stateFile = w.stateFile ∧
    (write_credentials c w).1.claudeJsonFile = w.claudeJsonFile := by
  cases hc : w.credentialsFile <;> simp [write_credentials, hc]

theorem write_oauth_account_json (a : OAuthAccount) (w : World)
    (jfs : List (String × J)) (h : w.claudeJsonFile = .json (J.obj jfs)) :
    write_oauth_account a w =
      ⟨.ok (),
        { w with
            claudeJsonFile :=
              FileData.json (J.obj (insertKey jfs "oauthAccount" (OAuthAccount.toJson a))) },
        [.read .claudeJsonFile, .write .claudeJsonFile]⟩ := by
  simp [write_oauth_account, h]

/-- Every successful run of `reauthenticate_profile` leaves the captured
profile persisted under the profile's name and does not touch the state
file. -/
theorem reauth_ok_frame (name : String) (login : LoginResult) (w : World) (p : Profile)
    (h : (reauthenticate_profile name login w).res = .ok p) :
    (reauthenticate_profile name login w).world.profileFiles name = .json (Profile.toJson p) ∧
    (reauthenticate_profile name login w).world.stateFile = w.stateFile := by
  obtain ⟨hcpf, hcsf⟩ := clear_auth_frame w
  rcases hca : clear_auth w with ⟨rc, w1, t1⟩
  rw [hca] at hcpf hcsf
  have hcsf1 : w1.stateFile = w.stateFile := by simpa using hcsf
  simp only [reauthenticate_profile, hca] at h ⊢
  cases rc with
  | error e => simp at h
  | ok u =>
    cases login with
    | failed => simp at h
    | ok cf jf =>
      rcases hro : read_oauth_credentials { w1 with credentialsFile := cf, claudeJsonFile := jf }
        with ⟨ov, tv⟩
      simp only [hro] at h ⊢
      cases ov with
      | some v =>
        cases hfc : OAuthCredentials.fromJson v with
        | none => simp [hfc] at h
        | some credentials =>
          simp only [hfc] at h ⊢
          rcases hs : save_profile name
              (Profile.oauth credentials
                (read_oauth_account { w1 with credentialsFile := cf, claudeJsonFile := jf }).1)
              { w1 with credentialsFile := cf, claudeJsonFile := jf }
            with ⟨rs, w3, t5⟩
          simp only [hs] at h ⊢
          cases rs with
          | error e => simp at h
          | ok u2 =>
            cases u2
            simp only at h
            obtain rfl := Except.ok.inj h
            have hres : (save_profile name
                (Profile.oauth credentials
                  (read_oauth_account { w1 with credentialsFile := cf, claudeJsonFile := jf }).1)
                { w1 with credentialsFile := cf, claudeJsonFile := jf }).res = .ok () := by
              rw [hs]
            have hworld := save_profile_ok_world _ _ _ hres
            rw [hs] at hworld
            simp only at hworld
            subst hworld
            refine ⟨by simp [World.setProfile], by simp [World.setProfile, hcsf1]⟩
      | none =>
        rcases hpa : read_primary_api_key { w1 with credentialsFile := cf, claudeJsonFile := jf }
          with ⟨ak, ta⟩
        simp only [hpa] at h ⊢
        cases ak with
        | none => simp at h
        | some key =>
          rcases hs : save_profile name (Profile.apiKey key none)
              { w1 with credentialsFile := cf, claudeJsonFile := jf }
            with ⟨rs, w3, t5⟩
          simp only [hs] at h ⊢
          cases rs with
          | error e => simp at h
          | ok u2 =>
            cases u2
            simp only at h
            obtain rfl := Except.ok.inj h
            have hres : (save_profile name (Profile.apiKey key none)
                { w1 with credentialsFile := cf, claudeJsonFile := jf }).res = .ok () := by
              rw [hs]
            have hworld := save_profile_ok_world _ _ _ hres
            rw [hs] at hworld
            simp only at hworld
            subst hworld
            refine ⟨by simp [World.setProfile], by simp [World.setProfile, hcsf1]⟩

/-- The credentials captured by the login flow in the reauthentication
scenario. -/
def newCreds : OAuthCredentials := ⟨"newtok", "newref", 1000, [], none, none⟩

/-- Login succeeded and wrote an OAuth bundle into the external credentials
file. -/
def loginAfter : LoginResult :=
  .ok (.json (J.obj [("claudeAiOauth", OAuthCredentials.toJson newCreds)])) (.json (J.obj []))

/-- A refresh-endpoint response: HTTP 400 whose body carries the
`invalid_grant` marker. -/
def net400 : Except String HttpResponse := .ok ⟨400, some "invalid_grant", none⟩

/-- C8 (counterexample): an `exec` of profile `p` whose refresh reports
InvalidGrant runs the reauthentication protocol to successful completion
(the process is replaced using the freshly captured token and the captured
profile is persisted), yet the active state still points at `other` — the
protocol did not mark `p` active on this path, contradicting the claim that
every path marks the profile active. -/
theorem c8_counterexample :
    (cmd_exec "p" ["claude"] 1000000 net400 loginAfter worldWithExpired).res =
      .ok ⟨["claude"], [("CLAUDE_CODE_OAUTH_TOKEN", "newtok")]⟩ ∧
    (cmd_exec "p" ["claude"] 1000000 net400 loginAfter worldWithExpired).world.profileFiles "p" =
      .json (Profile.toJson (Profile.oauth newCreds {})) ∧
    load_state (cmd_exec "p" ["claude"] 1000000 net400 loginAfter worldWithExpired).world =
      { active_profile := some "other" } ∧
    ¬ load_state (cmd_exec "p" ["claude"] 1000000 net400 loginAfter worldWithExpired).world =
      { active_profile := some "p" } := by
  have h3 : load_state (cmd_exec "p" ["claude"] 1000000 net400 loginAfter worldWithExpired).world =
      { active_profile := some "other" } := rfl
  refine ⟨rfl, rfl, h3, ?_⟩
  rw [h3]
  decide

/-- C8 (amended): whenever the Reauthentication Protocol completes
successfully, the captured credentials are persisted as the named profile
(overwriting any prior contents) — in `reauthenticate_profile` itself and
hence in every path that runs it — but the profile is marked active only in
the `use` path when the captured credentials are OAuth; the `exec` path
never updates the active state, and the `use` path aborts without updating
it when an API key was captured. -/
theorem c8_reauth_persist_activation :
    (∀ (name : String) (login : LoginResult) (w : World) (p : Profile),
      (reauthenticate_profile name login w).res = .ok p →
      (reauthenticate_profile name login w).world.profileFiles name =
        .json (Profile.toJson p) ∧
      (reauthenticate_profile name login w).world.stateFile = w.stateFile) ∧
    (∀ (name : String) (now : Nat) (net : Except String HttpResponse) (login : LoginResult)
        (w : World) (v : J) (c : OAuthCredentials) (a : OAuthAccount)
        (nc : OAuthCredentials) (na : OAuthAccount) (jfs : List (String × J)),
      validate_profile_name name = true →
      w.profileFiles name = .json v →
      Profile.fromJson v = some (Profile.oauth c a) →
      is_expired now c = true →
      refresh_token c now net = .error .invalidGrant →
      (reauthenticate_profile name login w).res = .ok (Profile.oauth nc na) →
      (reauthenticate_profile name login w).world.claudeJsonFile = .json (J.obj jfs) →
      (cmd_use name now net login w).res = .ok () ∧
      load_state (cmd_use name now net login w).world = { active_profile := some name } ∧
      (cmd_use name now net login w).world.profileFiles name =
        .json (Profile.toJson (Profile.oauth nc na))) ∧
    (∀ (name : String) (cmd : List String) (now : Nat) (net : Except String HttpResponse)
        (login : LoginResult) (w : World) (v : J) (c : OAuthCredentials) (a : OAuthAccount)
        (nc : OAuthCredentials) (na : OAuthAccount),
      cmd.isEmpty = false →
      validate_profile_name name = true →
      w.profileFiles name = .json v →
      Profile.fromJson v = some (Profile.oauth c a) →
      is_expired now c = true →
      refresh_token c now net = .error .invalidGrant →
      (reauthenticate_profile name login w).res = .ok (Profile.oauth nc na) →
      (cmd_exec name cmd now net login w).res =
        .ok ⟨cmd, [("CLAUDE_CODE_OAUTH_TOKEN", nc.access_token)]⟩ ∧
      (cmd_exec name cmd now net login w).world.stateFile = w.stateFile ∧
      (cmd_exec name cmd now net login w).world.profileFiles name =
        .json (Profile.toJson (Profile.oauth nc na))) ∧
    (∀ (name : String) (now : Nat) (net : Except String HttpResponse) (login : LoginResult)
        (w : World) (v : J) (c : OAuthCredentials) (a : OAuthAccount)
        (k : String) (l : Option String),
      validate_profile_name name = true →
      w.profileFiles name = .json v →
      Profile.fromJson v = some (Profile.oauth c a) →
      is_expired now c = true →
      refresh_token c now net = .error .invalidGrant →
      (reauthenticate_profile name login w).res = .ok (Profile.apiKey k l) →
      (cmd_use name now net login w).res =
        .error "re-authentication resulted in non-OAuth profile" ∧
      (cmd_use name now net login w).world.stateFile = w.stateFile) := by
  refine ⟨?_, ?_, ?_, ?_⟩
  · intro name login w p h
    exact reauth_ok_frame name login w p h
  · intro name now net login w v c a nc na jfs hv hf hp he hr hra hcl
    have hload : load_profile name w =
        ⟨.ok (Profile.oauth c a), w, [.read (.profileFile name)]⟩ := by
      simp [load_profile, hv, hf, hp]
    obtain ⟨hw2p, hw2s⟩ := reauth_ok_frame name login w (Profile.oauth nc na) hra
    rcases hra2 : reauthenticate_profile name login w with ⟨rr, w2, t2⟩
    rw [hra2] at hra hcl hw2p hw2s
    have hrr : rr = .ok (Profile.oauth nc na) := by simpa using hra
    subst hrr
    have hw2p' : w2.profileFiles name = .json (Profile.toJson (Profile.oauth nc na)) := by
      simpa using hw2p
    have hcl' : w2.claudeJsonFile = .json (J.obj jfs) := by simpa using hcl
    rcases hwc : write_credentials nc w2 with ⟨w3, t3⟩
    have hfw := write_credentials_frame nc w2
    rw [hwc] at hfw
    have hf1 : w3.profileFiles = w2.profileFiles := by simpa using hfw.1
    have hf3 : w3.claudeJsonFile = w2.claudeJsonFile := by simpa using hfw.2.2
    have hw3cl : w3.claudeJsonFile = .json (J.obj jfs) := by rw [hf3, hcl']
    have hwo := write_oauth_account_json na w3 jfs hw3cl
    refine ⟨?_, ?_, ?_⟩
    · simp [cmd_use, hload, he, hr, hra2, hwc, hwo, save_state]
    · have : (cmd_use name now net login w).world.stateFile =
          .json (State.toJson { active_profile := some name }) := by
        simp [cmd_use, hload, he, hr, hra2, hwc, hwo, save_state]
      exact load_state_json_state _ _ this
    · simp [cmd_use, hload, he, hr, hra2, hwc, hwo, save_state, hf1, hw2p']
  · intro name cmd now net login w v c a nc na hce hv hf hp he hr hra
    have hload : load_profile name w =
        ⟨.ok (Profile.oauth c a), w, [.read (.profileFile name)]⟩ := by
      simp [load_profile, hv, hf, hp]
    obtain ⟨hw2p, hw2s⟩ := reauth_ok_frame name login w (Profile.oauth nc na) hra
    rcases hra2 : reauthenticate_profile name login w with ⟨rr, w2, t2⟩
    rw [hra2] at hra hw2p hw2s
    have hrr : rr = .ok (Profile.oauth nc na) := by simpa using hra
    subst hrr
    have hw2p' : w2.profileFiles name = .json (Profile.toJson (Profile.oauth nc na)) := by
      simpa using hw2p
    have hw2s' : w2.stateFile = w.stateFile := by simpa using hw2s
    refine ⟨?_, ?_, ?_⟩ <;>
      simp [cmd_exec, hce, hload, he, hr, hra2, hw2p', hw2s']
  · intro name now net login w v c a k l hv hf hp he hr hra
    have hload : load_profile name w =
        ⟨.ok (Profile.oauth c a), w, [.read (.profileFile name)]⟩ := by
      simp [load_profile, hv, hf, hp]
    obtain ⟨hw2p, hw2s⟩ := reauth_ok_frame name login w (Profile.apiKey k l) hra
    rcases hra2 : reauthenticate_profile name login w with ⟨rr, w2, t2⟩
    rw [hra2] at hra hw2p hw2s
    have hrr : rr = .ok (Profile.apiKey k l) := by simpa using hra
    subst hrr
    have hw2s' : w2.stateFile = w.stateFile := by simpa using hw2s
    refine ⟨?_, ?_⟩ <;> simp [cmd_use, hload, he, hr, hra2, hw2s']

theorem c8_reauth_persist_activation_witness :
    (cmd_exec "p" ["claude"] 1000000 net400 loginAfter worldWithExpired).world.stateFile =
      worldWithExpired.stateFile :=
  (c8_reauth_persist_activation.2.2.1 "p" ["claude"] 1000000 net400 loginAfter
    worldWithExpired (Profile.toJson (Profile.oauth staleCreds {})) staleCreds {}
    newCreds {} rfl (by decide) rfl rfl (by decide) rfl rfl).2.1

end ClaudeSwitch
